import Mathlib

/-!
Shallow embedding of the URL-shortener core engine (the Go `url-service`,
with the durable `storage-service` behind it).

The engine's mutable receiver state (`urls`, `stats`, `createdAt` maps) is
modelled as explicit state passing over association lists.  Responses from
the two external collaborators (fast cache, durable store) are parameters
of each operation: they stand for whatever the external call would have
returned.  Fire-and-forget goroutines (durable persist, cache set, cache
warm, durable click flush) do not touch local state; they are recorded as
an effects log so that "the operation triggers X" is statable.
-/

namespace UrlShortener

/-- First-match lookup in an association list, modelling a Go map read. -/
def lookupA {α : Type} : List (String × α) → String → Option α
  | [], _ => none
  | (k, v) :: rest, key => if k = key then some v else lookupA rest key

/-- Map update `m[key] = v`, modelled as a cons (first match wins on lookup). -/
def insertA {α : Type} (key : String) (v : α) (l : List (String × α)) :
    List (String × α) :=
  (key, v) :: l

theorem lookupA_insertA {α : Type} (key k : String) (v : α)
    (l : List (String × α)) :
    lookupA (insertA key v l) k = if key = k then some v else lookupA l k :=
  rfl

/-- The three per-code collections of the `urlServer` receiver:
`urls map[string]string`, `stats map[string]int64`,
`createdAt map[string]time.Time` (time modelled as Nat).  The click
counter is a signed 64-bit integer: every write produced by the code is
wrapped into `[-2^63, 2^63)` by `wrap64`. -/
structure LocalState where
  urls : List (String × String)
  stats : List (String × Int)
  createdAt : List (String × Nat)
deriving DecidableEq, Repr

/-- Outcome of the fast-cache `Get` call: a hit (err == nil && Found, with
Value), a miss (err == nil && !Found), or a transport error (err != nil). -/
inductive CacheResp where
  | hit (value : String)
  | miss
  | errorResp
deriving DecidableEq, Repr

/-- Outcome of the durable-store `GetURL` call. -/
inductive StorageURLResp where
  | hit (originalUrl : String)
  | miss
  | errorResp
deriving DecidableEq, Repr

/-- Outcome of the durable-store `GetStats` call: a transport error
(err != nil) or a response carrying ClickCount, CreatedAt and Error. -/
inductive StorageStatsResp where
  | transportError
  | resp (clickCount : Int) (createdAt : String) (error : String)
deriving DecidableEq, Repr

/-- An asynchronous outbound call spawned by the engine (fire-and-forget
goroutines); `cacheSet` carries the TTL in seconds. -/
inductive Effect where
  | saveURL (shortCode originalUrl : String)
  | cacheSet (key value : String) (ttlSeconds : Nat)
  | incrementClick (shortCode : String)
deriving DecidableEq, Repr

/-- Proto `ShortenResponse`: unset fields keep their zero value. -/
structure ShortenResponse where
  shortCode : String
  originalUrl : String
  error : String
deriving DecidableEq, Repr

/-- Proto `GetOriginalResponse`. -/
structure GetOriginalResponse where
  originalUrl : String
  found : Bool
deriving DecidableEq, Repr

/-- Proto `StatsResponse`. -/
structure StatsResponse where
  shortCode : String
  clickCount : Int
  createdAt : String
  error : String
deriving DecidableEq, Repr

/-- Stand-in for `time.Time.Format(time.RFC3339)` on the modelled clock. -/
def timeFormat (t : Nat) : String := toString t

/-- Two's-complement wraparound of Go's `int64` arithmetic: the value is
reduced into the representable range `[-2^63, 2^63)` the way a Go signed
64-bit increment overflows (9223372036854775808 is `2^63`,
18446744073709551616 is `2^64`). -/
def wrap64 (n : Int) : Int :=
  (n + 9223372036854775808) % 18446744073709551616 - 9223372036854775808

/-- The fixed alphabet of `generateShortCode`. -/
def charset : String := "abcdefghijklmnopqrstuvwxyzABCDEFGHIJKLMNOPQRSTUVWXYZ0123456789"

/-- `generateShortCode`: six characters, each one `charset[sample % 62]`
where `sample` is the `time.Now().UnixNano()` value observed at that
position (passed in, since the clock is an input of the model). -/
def generateShortCode (samples : Fin 6 → Nat) : String :=
  String.mk (List.ofFn (fun i => charset.data.getD (samples i % charset.data.length) 'a'))

/-- `incrementStats`: under the lock, `s.stats[shortCode]++` (a missing key
reads as the Go zero value 0, and the `int64` increment wraps at MaxInt64),
then an async `IncrementClick` to storage. -/
def incrementStats (s : LocalState) (shortCode : String) :
    LocalState × List Effect :=
  ({ s with stats := insertA shortCode (wrap64 ((lookupA s.stats shortCode).getD 0 + 1)) s.stats },
   [Effect.incrementClick shortCode])

/-- `warmCache`: an async cache `Set` with a 3600-second TTL. -/
def warmCache (shortCode originalURL : String) : Effect :=
  Effect.cacheSet shortCode originalURL 3600

/-- Result of `ShortenURL`: the RPC response, the receiver state after the
call, and the async calls it spawned. -/
structure ShortenOut where
  resp : ShortenResponse
  state : LocalState
  effects : List Effect
deriving DecidableEq, Repr

/-- Result of `GetOriginalURL`. -/
structure ResolveOut where
  resp : GetOriginalResponse
  state : LocalState
  effects : List Effect
deriving DecidableEq, Repr

/-- `ShortenURL`: pick the generated code unless a custom alias is supplied;
under the exclusive lock refuse if `urls` already holds the code, else
insert URL, zeroed stats and creation time; then spawn the async durable
`SaveURL` and cache `Set` (TTL 360) and return success. -/
def ShortenURL (s : LocalState) (generated originalUrl customAlias : String)
    (now : Nat) : ShortenOut :=
  let shortCode := if customAlias = "" then generated else customAlias
  match lookupA s.urls shortCode with
  | some _ =>
      { resp := { shortCode := "", originalUrl := "", error := "Custom alias already exists" },
        state := s, effects := [] }
  | none =>
      { resp := { shortCode := shortCode, originalUrl := originalUrl, error := "" },
        state :=
          { urls := insertA shortCode originalUrl s.urls,
            stats := insertA shortCode 0 s.stats,
            createdAt := insertA shortCode now s.createdAt },
        effects := [Effect.saveURL shortCode originalUrl,
                    Effect.cacheSet shortCode originalUrl 360] }

/-- `GetOriginalURL`: try the fast cache, then the in-memory map, then the
durable store; on a memory or storage hit warm the cache asynchronously; a
storage hit also materializes the record into local state; every hit calls
`incrementStats`; all three missing yields `found = false`. -/
def GetOriginalURL (s : LocalState) (cache : CacheResp)
    (storage : StorageURLResp) (now : Nat) (shortCode : String) : ResolveOut :=
  match cache with
  | CacheResp.hit v =>
      let inc := incrementStats s shortCode
      { resp := { originalUrl := v, found := true }, state := inc.1, effects := inc.2 }
  | _ =>
      match lookupA s.urls shortCode with
      | some originalURL =>
          let inc := incrementStats s shortCode
          { resp := { originalUrl := originalURL, found := true },
            state := inc.1,
            effects := warmCache shortCode originalURL :: inc.2 }
      | none =>
          match storage with
          | StorageURLResp.hit u =>
              let s1 : LocalState :=
                { urls := insertA shortCode u s.urls,
                  stats := insertA shortCode 0 s.stats,
                  createdAt := insertA shortCode now s.createdAt }
              let inc := incrementStats s1 shortCode
              { resp := { originalUrl := u, found := true },
                state := inc.1,
                effects := warmCache shortCode u :: inc.2 }
          | _ =>
              { resp := { originalUrl := "", found := false }, state := s, effects := [] }

/-- `GetURLStats`: under the shared lock read `stats` and `createdAt`; if
the code is present locally answer from local state; otherwise call the
durable store's `GetStats` and relay its data when it reports no error,
else answer `error = "URL not found"`.  Local state is not modified. -/
def GetURLStats (s : LocalState) (storageStats : StorageStatsResp)
    (shortCode : String) : StatsResponse :=
  match lookupA s.stats shortCode with
  | some clickCount =>
      { shortCode := shortCode, clickCount := clickCount,
        createdAt := timeFormat ((lookupA s.createdAt shortCode).getD 0),
        error := "" }
  | none =>
      match storageStats with
      | StorageStatsResp.resp cc ca e =>
          if e = "" then
            { shortCode := shortCode, clickCount := cc, createdAt := ca, error := "" }
          else
            { shortCode := "", clickCount := 0, createdAt := "", error := "URL not found" }
      | StorageStatsResp.transportError =>
          { shortCode := "", clickCount := 0, createdAt := "", error := "URL not found" }

/-- A row of the durable store's `urls` table. -/
structure DBRow where
  originalUrl : String
  clickCount : Int
  createdAt : Nat
deriving DecidableEq, Repr

/-- The storage-service `GetURL` handler over a modelled table. -/
def storageGetURL (db : List (String × DBRow)) (shortCode : String) :
    StorageURLResp :=
  match lookupA db shortCode with
  | none => StorageURLResp.miss
  | some row => StorageURLResp.hit row.originalUrl

/-- The storage-service `GetStats` handler over a modelled table: a missing
row yields `Error = "URL not found"`, a present row yields its count and
formatted creation time. -/
def storageGetStats (db : List (String × DBRow)) (shortCode : String) :
    StorageStatsResp :=
  match lookupA db shortCode with
  | none => StorageStatsResp.resp 0 "" "URL not found"
  | some row => StorageStatsResp.resp row.clickCount (timeFormat row.createdAt) ""

/-- One inbound operation of the engine, with the external responses and
clock samples it would observe. -/
inductive Op where
  | shorten (generated originalUrl customAlias : String) (now : Nat)
  | getOriginal (cache : CacheResp) (storage : StorageURLResp) (now : Nat) (shortCode : String)
  | getStats (storageStats : StorageStatsResp) (shortCode : String)
  | increment (shortCode : String)
deriving DecidableEq, Repr

/-- The local-state transition of each operation (`GetURLStats` never
mutates the receiver). -/
def applyOp (s : LocalState) : Op → LocalState
  | Op.shorten g u a t => (ShortenURL s g u a t).state
  | Op.getOriginal cache storage t c => (GetOriginalURL s cache storage t c).state
  | Op.getStats _ _ => s
  | Op.increment c => (incrementStats s c).1

/-- The in-process click counter of a code (a missing key reads as 0). -/
def statsCount (s : LocalState) (shortCode : String) : Int :=
  (lookupA s.stats shortCode).getD 0

/-- The key-alignment invariant claimed for the three local maps: the
stats, URL and creation-time maps hold exactly the same codes. -/
def keyAligned (s : LocalState) : Prop :=
  ∀ c, ((lookupA s.urls c).isSome ↔ (lookupA s.stats c).isSome)
    ∧ ((lookupA s.urls c).isSome ↔ (lookupA s.createdAt c).isSome)

/-- The alignment the code actually maintains: URL and creation-time maps
agree exactly, and every URL key has a stats entry (but not conversely). -/
def amendedAligned (s : LocalState) : Prop :=
  ∀ c, ((lookupA s.urls c).isSome ↔ (lookupA s.createdAt c).isSome)
    ∧ ((lookupA s.urls c).isSome → (lookupA s.stats c).isSome)

/-- Whether a cache response is a hit (the short-circuit condition
`err == nil && cacheResp.Found`). -/
def CacheResp.isHit : CacheResp → Bool
  | CacheResp.hit _ => true
  | _ => false

/-- Whether a durable-store URL response is a hit. -/
def StorageURLResp.isHit : StorageURLResp → Bool
  | StorageURLResp.hit _ => true
  | _ => false

/-! ## Helper lemmas -/

theorem wrap64_eq_self (n : Int) (h1 : -9223372036854775808 ≤ n)
    (h2 : n < 9223372036854775808) : wrap64 n = n := by
  unfold wrap64
  omega

theorem statsCount_incrementStats (s : LocalState) (c0 c : String) :
    statsCount (incrementStats s c0).1 c
      = if c0 = c then wrap64 (statsCount s c + 1) else statsCount s c := by
  by_cases h : c0 = c
  · subst h
    simp [statsCount, incrementStats, lookupA_insertA]
  · simp [statsCount, incrementStats, lookupA_insertA, h]

theorem statsCount_le_incrementStats (s : LocalState) (c0 c : String)
    (h1 : -9223372036854775808 ≤ statsCount s c)
    (h2 : statsCount s c < 9223372036854775807) :
    statsCount s c ≤ statsCount (incrementStats s c0).1 c := by
  rw [statsCount_incrementStats]
  split
  · rw [wrap64_eq_self (statsCount s c + 1) (by omega) (by omega)]
    omega
  · omega

theorem amendedAligned_insertAll (s : LocalState) (sc u : String) (n : Int)
    (t : Nat) (h : amendedAligned s) :
    amendedAligned
      { urls := insertA sc u s.urls, stats := insertA sc n s.stats,
        createdAt := insertA sc t s.createdAt } := by
  intro c
  by_cases hsc : sc = c
  · simp [lookupA_insertA, hsc]
  · simpa [lookupA_insertA, hsc] using h c

theorem amendedAligned_insertStats (s : LocalState) (sc : String) (n : Int)
    (h : amendedAligned s) :
    amendedAligned { s with stats := insertA sc n s.stats } := by
  intro c
  by_cases hsc : sc = c
  · refine ⟨(h c).1, ?_⟩
    simp [lookupA_insertA, hsc]
  · simpa [lookupA_insertA, hsc] using h c

/-! ## Claims -/

/-- C2: if a first `ShortenURL` with custom alias `a` succeeds mapping `a`
to `u1`, a second `ShortenURL` with alias `a` and any URL returns the error
"Custom alias already exists", leaves the local state exactly as it was
after the first call, and `a` still maps to `u1`. -/
theorem c2_custom_alias_conflict (s : LocalState)
    (g1 g2 u1 u2 a : String) (t1 t2 : Nat)
    (ha : a ≠ "")
    (h1 : (ShortenURL s g1 u1 a t1).resp.error = "") :
    (ShortenURL (ShortenURL s g1 u1 a t1).state g2 u2 a t2).resp.error
        = "Custom alias already exists"
    ∧ (ShortenURL (ShortenURL s g1 u1 a t1).state g2 u2 a t2).state
        = (ShortenURL s g1 u1 a t1).state
    ∧ lookupA (ShortenURL s g1 u1 a t1).state.urls a = some u1 := by
  cases hu : lookupA s.urls a with
  | some v =>
      exfalso
      have hh : (ShortenURL s g1 u1 a t1).resp.error = "Custom alias already exists" := by
        simp [ShortenURL, ha, hu]
      rw [hh] at h1
      exact absurd h1 (by decide)
  | none =>
      refine ⟨?_, ?_, ?_⟩ <;> simp [ShortenURL, ha, hu, lookupA_insertA]

/-- C2 witness: concrete duplicate-alias scenario. -/
theorem c2_custom_alias_conflict_witness :
    (ShortenURL (ShortenURL { urls := [], stats := [], createdAt := [] }
        "g1aaaa" "https://one.example" "promo" 0).state
      "g2aaaa" "https://two.example" "promo" 1).resp.error
      = "Custom alias already exists" :=
  (c2_custom_alias_conflict { urls := [], stats := [], createdAt := [] }
    "g1aaaa" "g2aaaa" "https://one.example" "https://two.example" "promo" 0 1
    (by decide) rfl).1

/-- C3: `GetOriginalURL` consults the external fast cache first, then local
process state, then the durable store, short-circuiting on the first hit
(later tiers do not influence the outcome), and returns `found = false`
exactly when all three tiers miss. -/
theorem c3_resolver_tier_order (s : LocalState) (cache : CacheResp)
    (storage storage' : StorageURLResp) (now now' : Nat) (shortCode : String) :
    (∀ v, cache = CacheResp.hit v →
      GetOriginalURL s cache storage now shortCode
        = GetOriginalURL s cache storage' now' shortCode
      ∧ (GetOriginalURL s cache storage now shortCode).resp
          = { originalUrl := v, found := true })
    ∧ (cache.isHit = false →
        ∀ u, lookupA s.urls shortCode = some u →
          GetOriginalURL s cache storage now shortCode
            = GetOriginalURL s cache storage' now' shortCode
          ∧ (GetOriginalURL s cache storage now shortCode).resp
              = { originalUrl := u, found := true })
    ∧ ((GetOriginalURL s cache storage now shortCode).resp.found = false ↔
        cache.isHit = false ∧ lookupA s.urls shortCode = none
          ∧ storage.isHit = false) := by
  refine ⟨?_, ?_, ?_⟩
  · rintro v rfl
    exact ⟨rfl, rfl⟩
  · intro hch u hu
    cases cache with
    | hit v => simp [CacheResp.isHit] at hch
    | miss => exact ⟨by simp [GetOriginalURL, hu], by simp [GetOriginalURL, hu]⟩
    | errorResp => exact ⟨by simp [GetOriginalURL, hu], by simp [GetOriginalURL, hu]⟩
  · cases cache with
    | hit v => simp [GetOriginalURL, CacheResp.isHit, incrementStats]
    | miss =>
        cases hu : lookupA s.urls shortCode with
        | some u => simp [GetOriginalURL, hu, CacheResp.isHit, incrementStats]
        | none =>
            cases storage <;>
              simp [GetOriginalURL, hu, CacheResp.isHit, StorageURLResp.isHit,
                incrementStats]
    | errorResp =>
        cases hu : lookupA s.urls shortCode with
        | some u => simp [GetOriginalURL, hu, CacheResp.isHit, incrementStats]
        | none =>
            cases storage <;>
              simp [GetOriginalURL, hu, CacheResp.isHit, StorageURLResp.isHit,
                incrementStats]

/-- C3 witness: all three tiers miss on an empty deployment. -/
theorem c3_resolver_tier_order_witness :
    (GetOriginalURL { urls := [], stats := [], createdAt := [] }
      CacheResp.miss StorageURLResp.miss 0 "abc123").resp.found = false :=
  (c3_resolver_tier_order { urls := [], stats := [], createdAt := [] }
    CacheResp.miss StorageURLResp.miss StorageURLResp.errorResp 0 1
    "abc123").2.2.mpr ⟨rfl, rfl, rfl⟩

/-- C8: `GetURLStats` answers from local state when the code has a local
stats entry; otherwise it relays the durable store's stats; for a code in
no tier it returns the error "URL not found". -/
theorem c8_stats_local_then_durable (s : LocalState)
    (db : List (String × DBRow)) (shortCode : String) :
    (∀ n, lookupA s.stats shortCode = some n →
      GetURLStats s (storageGetStats db shortCode) shortCode =
        { shortCode := shortCode, clickCount := n,
          createdAt := timeFormat ((lookupA s.createdAt shortCode).getD 0),
          error := "" })
    ∧ (lookupA s.stats shortCode = none →
        ∀ row, lookupA db shortCode = some row →
          GetURLStats s (storageGetStats db shortCode) shortCode =
            { shortCode := shortCode, clickCount := row.clickCount,
              createdAt := timeFormat row.createdAt, error := "" })
    ∧ (lookupA s.stats shortCode = none → lookupA db shortCode = none →
        GetURLStats s (storageGetStats db shortCode) shortCode =
          { shortCode := "", clickCount := 0, createdAt := "",
            error := "URL not found" }) := by
  refine ⟨?_, ?_, ?_⟩
  · intro n hn
    simp [GetURLStats, hn]
  · intro hl row hrow
    simp [GetURLStats, hl, storageGetStats, hrow]
  · intro hl hdb
    simp [GetURLStats, hl, storageGetStats, hdb]

/-- C8 witness: a never-created code yields "URL not found". -/
theorem c8_stats_local_then_durable_witness :
    GetURLStats { urls := [], stats := [], createdAt := [] }
      (storageGetStats [] "zzz000") "zzz000"
      = { shortCode := "", clickCount := 0, createdAt := "",
          error := "URL not found" } :=
  (c8_stats_local_then_durable { urls := [], stats := [], createdAt := [] }
    [] "zzz000").2.2 rfl rfl

/-- C9 counterexample: a code present in local state is answered by the
fast-cache tier, not from local state — the cache is consulted first and a
cache hit decides the result even when the local value differs. -/
theorem c9_cache_decides_before_local :
    lookupA ({ urls := [("abc123", "https://a.example")],
               stats := [("abc123", (0 : Int))],
               createdAt := [("abc123", 0)] } : LocalState).urls "abc123"
      = some "https://a.example"
    ∧ (GetOriginalURL { urls := [("abc123", "https://a.example")],
                        stats := [("abc123", (0 : Int))],
                        createdAt := [("abc123", 0)] }
        (CacheResp.hit "https://b.example") StorageURLResp.miss 0
        "abc123").resp
      = { originalUrl := "https://b.example", found := true }
    ∧ "https://b.example" ≠ "https://a.example" := by
  refine ⟨rfl, rfl, ?_⟩
  decide

/-- C9 amended: the Tiered Resolver looks up fast cache first, then local
state, then durable store; a code present in local state is answered from
local state (without the durable tier influencing the outcome) whenever
the fast-cache tier does not hit. -/
theorem c9_amended_cache_first_order (s : LocalState) (cache : CacheResp)
    (storage storage' : StorageURLResp) (now now' : Nat)
    (shortCode u : String)
    (hch : cache.isHit = false)
    (hu : lookupA s.urls shortCode = some u) :
    (GetOriginalURL s cache storage now shortCode).resp
      = { originalUrl := u, found := true }
    ∧ GetOriginalURL s cache storage now shortCode
        = GetOriginalURL s cache storage' now' shortCode := by
  cases cache with
  | hit v => simp [CacheResp.isHit] at hch
  | miss => exact ⟨by simp [GetOriginalURL, hu], by simp [GetOriginalURL, hu]⟩
  | errorResp => exact ⟨by simp [GetOriginalURL, hu], by simp [GetOriginalURL, hu]⟩

/-- C9 amended witness: a locally-present code resolves to its local value
when the cache misses. -/
theorem c9_amended_cache_first_order_witness :
    (GetOriginalURL { urls := [("abc123", "https://a.example")],
                      stats := [("abc123", (0 : Int))],
                      createdAt := [("abc123", 0)] }
        CacheResp.miss StorageURLResp.miss 0 "abc123").resp
      = { originalUrl := "https://a.example", found := true } :=
  (c9_amended_cache_first_order
    { urls := [("abc123", "https://a.example")],
      stats := [("abc123", (0 : Int))], createdAt := [("abc123", 0)] }
    CacheResp.miss StorageURLResp.miss
    StorageURLResp.errorResp 0 1 "abc123" "https://a.example" rfl rfl).1

/-- C10: when a code is absent locally, any failing durable-store stats
response — a transport error or any response with a non-empty error string
— makes `GetURLStats` answer "URL not found". -/
theorem c10_storage_stats_failure_masked_as_not_found (s : LocalState)
    (shortCode : String) (storageStats : StorageStatsResp)
    (hlocal : lookupA s.stats shortCode = none)
    (hfail : storageStats = StorageStatsResp.transportError ∨
      ∃ cc ca e, storageStats = StorageStatsResp.resp cc ca e ∧ e ≠ "") :
    GetURLStats s storageStats shortCode =
      { shortCode := "", clickCount := 0, createdAt := "",
        error := "URL not found" } := by
  rcases hfail with h | ⟨cc, ca, e, h, he⟩
  · subst h
    simp [GetURLStats, hlocal]
  · subst h
    simp [GetURLStats, hlocal, he]

/-- C10 witness: an unreachable durable store reads as "URL not found". -/
theorem c10_storage_stats_failure_witness :
    GetURLStats { urls := [], stats := [], createdAt := [] }
      StorageStatsResp.transportError "abc123"
      = { shortCode := "", clickCount := 0, createdAt := "",
          error := "URL not found" } :=
  c10_storage_stats_failure_masked_as_not_found
    { urls := [], stats := [], createdAt := [] } "abc123"
    StorageStatsResp.transportError rfl (Or.inl rfl)

/-- C1 counterexample: when the external fast cache already holds a
conflicting entry for the code generated by a successful alias-free
`ShortenURL`, the immediately following `GetOriginalURL` answers from the
cache with a URL different from the one just shortened. -/
theorem c1_stale_cache_overrides_created_url :
    (ShortenURL { urls := [], stats := [], createdAt := [] }
        "abc123" "https://example.com" "" 0).resp.error = ""
    ∧ (ShortenURL { urls := [], stats := [], createdAt := [] }
        "abc123" "https://example.com" "" 0).resp.shortCode = "abc123"
    ∧ (GetOriginalURL
        (ShortenURL { urls := [], stats := [], createdAt := [] }
          "abc123" "https://example.com" "" 0).state
        (CacheResp.hit "https://stale.example") StorageURLResp.miss 1
        "abc123").resp.found = true
    ∧ (GetOriginalURL
        (ShortenURL { urls := [], stats := [], createdAt := [] }
          "abc123" "https://example.com" "" 0).state
        (CacheResp.hit "https://stale.example") StorageURLResp.miss 1
        "abc123").resp.originalUrl ≠ "https://example.com" := by
  refine ⟨rfl, rfl, rfl, ?_⟩
  decide

/-- C1 amended: after a successful alias-free `ShortenURL` of `u` returning
code `c`, an immediately following `GetOriginalURL(c)` in the same process
returns `found = true`; and it returns `u` unmodified provided the fast
cache does not answer with a hit carrying a different value (the cache
tier is consulted first and a conflicting stale entry would win). -/
theorem c1_create_then_resolve_same_process (s : LocalState)
    (generated originalUrl : String) (now now' : Nat)
    (cache : CacheResp) (storage : StorageURLResp)
    (h1 : (ShortenURL s generated originalUrl "" now).resp.error = "")
    (hcache : ∀ v, cache = CacheResp.hit v → v = originalUrl) :
    (GetOriginalURL (ShortenURL s generated originalUrl "" now).state cache
        storage now'
        (ShortenURL s generated originalUrl "" now).resp.shortCode).resp
      = { originalUrl := originalUrl, found := true } := by
  cases hu : lookupA s.urls generated with
  | some v =>
      exfalso
      have hh : (ShortenURL s generated originalUrl "" now).resp.error
          = "Custom alias already exists" := by
        simp [ShortenURL, hu]
      rw [hh] at h1
      exact absurd h1 (by decide)
  | none =>
      have hstate : (ShortenURL s generated originalUrl "" now).state
          = { urls := insertA generated originalUrl s.urls,
              stats := insertA generated 0 s.stats,
              createdAt := insertA generated now s.createdAt } := by
        simp [ShortenURL, hu]
      have hcode : (ShortenURL s generated originalUrl "" now).resp.shortCode
          = generated := by
        simp [ShortenURL, hu]
      rw [hstate, hcode]
      cases cache with
      | hit v =>
          rw [hcache v rfl]
          simp [GetOriginalURL]
      | miss => simp [GetOriginalURL, lookupA_insertA]
      | errorResp => simp [GetOriginalURL, lookupA_insertA]

/-- C1 amended witness: create then resolve on a fresh process with a cold
cache. -/
theorem c1_create_then_resolve_witness :
    (GetOriginalURL
        (ShortenURL { urls := [], stats := [], createdAt := [] }
          "abc123" "https://example.com" "" 0).state
        CacheResp.miss StorageURLResp.miss 1
        (ShortenURL { urls := [], stats := [], createdAt := [] }
          "abc123" "https://example.com" "" 0).resp.shortCode).resp
      = { originalUrl := "https://example.com", found := true } :=
  c1_create_then_resolve_same_process
    { urls := [], stats := [], createdAt := [] }
    "abc123" "https://example.com" 0 1 CacheResp.miss StorageURLResp.miss
    rfl (fun _ h => nomatch h)

/-- C4 counterexample: the three local maps start with identical key sets,
yet a single `GetOriginalURL` that hits the fast cache for a locally-absent
code creates a stats entry with no URL record or creation time, breaking
the claimed 1:1 key alignment. -/
theorem c4_cache_hit_breaks_key_alignment :
    keyAligned { urls := [], stats := [], createdAt := [] }
    ∧ ¬ keyAligned (applyOp { urls := [], stats := [], createdAt := [] }
        (Op.getOriginal (CacheResp.hit "https://x.example")
          StorageURLResp.miss 0 "abc123")) := by
  constructor
  · intro c
    simp [lookupA]
  · intro h
    have hst : applyOp { urls := [], stats := [], createdAt := [] }
        (Op.getOriginal (CacheResp.hit "https://x.example")
          StorageURLResp.miss 0 "abc123")
        = { urls := [], stats := [("abc123", (1 : Int))], createdAt := [] } := by
      decide
    rw [hst] at h
    have h2 := (h "abc123").1
    simp [lookupA] at h2

/-- C4 amended: every operation preserves the alignment the code actually
maintains — the URL map and the creation-time map hold exactly the same
codes, and every URL-map code has a stats entry; a stats entry may however
exist without a URL record, because a fast-cache hit for a locally-absent
code increments (and thereby creates) the stats entry alone. -/
theorem c4_amended_key_alignment_preserved (s : LocalState) (op : Op)
    (h : amendedAligned s) : amendedAligned (applyOp s op) := by
  cases op with
  | shorten g u a t =>
      cases hx : lookupA s.urls (if a = "" then g else a) with
      | some v =>
          have hst : applyOp s (Op.shorten g u a t) = s := by
            simp [applyOp, ShortenURL, hx]
          rw [hst]
          exact h
      | none =>
          have hst : applyOp s (Op.shorten g u a t)
              = { urls := insertA (if a = "" then g else a) u s.urls,
                  stats := insertA (if a = "" then g else a) 0 s.stats,
                  createdAt := insertA (if a = "" then g else a) t s.createdAt } := by
            simp [applyOp, ShortenURL, hx]
          rw [hst]
          exact amendedAligned_insertAll s _ u 0 t h
  | getOriginal cache storage t c0 =>
      cases cache with
      | hit _ => exact amendedAligned_insertStats s c0 _ h
      | miss =>
          cases hu : lookupA s.urls c0 with
          | some u =>
              have hst : applyOp s (Op.getOriginal CacheResp.miss storage t c0)
                  = (incrementStats s c0).1 := by
                simp [applyOp, GetOriginalURL, hu]
              rw [hst]
              exact amendedAligned_insertStats s c0 _ h
          | none =>
              cases storage with
              | hit u =>
                  have hst : applyOp s
                      (Op.getOriginal CacheResp.miss (StorageURLResp.hit u) t c0)
                      = (incrementStats
                          { urls := insertA c0 u s.urls,
                            stats := insertA c0 0 s.stats,
                            createdAt := insertA c0 t s.createdAt } c0).1 := by
                    simp [applyOp, GetOriginalURL, hu]
                  rw [hst]
                  exact amendedAligned_insertStats _ c0 _
                    (amendedAligned_insertAll s c0 u 0 t h)
              | miss =>
                  have hst : applyOp s
                      (Op.getOriginal CacheResp.miss StorageURLResp.miss t c0)
                      = s := by
                    simp [applyOp, GetOriginalURL, hu]
                  rw [hst]
                  exact h
              | errorResp =>
                  have hst : applyOp s
                      (Op.getOriginal CacheResp.miss StorageURLResp.errorResp t c0)
                      = s := by
                    simp [applyOp, GetOriginalURL, hu]
                  rw [hst]
                  exact h
      | errorResp =>
          cases hu : lookupA s.urls c0 with
          | some u =>
              have hst : applyOp s
                  (Op.getOriginal CacheResp.errorResp storage t c0)
                  = (incrementStats s c0).1 := by
                simp [applyOp, GetOriginalURL, hu]
              rw [hst]
              exact amendedAligned_insertStats s c0 _ h
          | none =>
              cases storage with
              | hit u =>
                  have hst : applyOp s
                      (Op.getOriginal CacheResp.errorResp (StorageURLResp.hit u) t c0)
                      = (incrementStats
                          { urls := insertA c0 u s.urls,
                            stats := insertA c0 0 s.stats,
                            createdAt := insertA c0 t s.createdAt } c0).1 := by
                    simp [applyOp, GetOriginalURL, hu]
                  rw [hst]
                  exact amendedAligned_insertStats _ c0 _
                    (amendedAligned_insertAll s c0 u 0 t h)
              | miss =>
                  have hst : applyOp s
                      (Op.getOriginal CacheResp.errorResp StorageURLResp.miss t c0)
                      = s := by
                    simp [applyOp, GetOriginalURL, hu]
                  rw [hst]
                  exact h
              | errorResp =>
                  have hst : applyOp s
                      (Op.getOriginal CacheResp.errorResp StorageURLResp.errorResp t c0)
                      = s := by
                    simp [applyOp, GetOriginalURL, hu]
                  rw [hst]
                  exact h
  | getStats st c0 => exact h
  | increment c0 => exact amendedAligned_insertStats s c0 _ h

/-- C4 amended witness: a fresh shorten on an empty state keeps the maps
aligned. -/
theorem c4_amended_key_alignment_witness :
    amendedAligned (applyOp { urls := [], stats := [], createdAt := [] }
      (Op.shorten "abc123" "https://example.com" "" 0)) :=
  c4_amended_key_alignment_preserved
    { urls := [], stats := [], createdAt := [] }
    (Op.shorten "abc123" "https://example.com" "" 0)
    (fun c => by simp [lookupA])

/-- C5 counterexample: the click counter is a Go `int64`, so at MaxInt64
(9223372036854775807) the very next increment — here an `incrementStats`
on a code that has a local URL record — wraps the local counter to
MinInt64, making it smaller than it was before the operation. -/
theorem c5_wraparound_counter_decreases :
    (lookupA ({ urls := [("abc123", "https://example.com")],
                stats := [("abc123", (9223372036854775807 : Int))],
                createdAt := [("abc123", 0)] } : LocalState).urls
      "abc123").isSome = true
    ∧ ¬ (statsCount { urls := [("abc123", "https://example.com")],
                      stats := [("abc123", (9223372036854775807 : Int))],
                      createdAt := [("abc123", 0)] } "abc123"
          ≤ statsCount (applyOp
              { urls := [("abc123", "https://example.com")],
                stats := [("abc123", (9223372036854775807 : Int))],
                createdAt := [("abc123", 0)] }
              (Op.increment "abc123")) "abc123") := by
  constructor <;> decide

/-- C5 amended: no operation of the engine makes the in-process click
counter of a code that has a local URL record smaller than it was before
the operation, provided the counter's current value is a representable
`int64` strictly below MaxInt64 (at MaxInt64 the next increment wraps to
MinInt64). -/
theorem c5_amended_click_counter_monotone (s : LocalState) (op : Op)
    (c : String)
    (hc : (lookupA s.urls c).isSome = true)
    (h1 : -9223372036854775808 ≤ statsCount s c)
    (h2 : statsCount s c < 9223372036854775807) :
    statsCount s c ≤ statsCount (applyOp s op) c := by
  cases op with
  | shorten g u a t =>
      cases hx : lookupA s.urls (if a = "" then g else a) with
      | some v =>
          have hst : applyOp s (Op.shorten g u a t) = s := by
            simp [applyOp, ShortenURL, hx]
          rw [hst]
      | none =>
          have hne : (if a = "" then g else a) ≠ c := by
            intro hEq
            rw [hEq] at hx
            rw [hx] at hc
            simp at hc
          have hst : statsCount (applyOp s (Op.shorten g u a t)) c
              = statsCount s c := by
            simp [applyOp, ShortenURL, hx, statsCount, lookupA_insertA, hne]
          rw [hst]
  | getOriginal cache storage t c0 =>
      cases cache with
      | hit v => exact statsCount_le_incrementStats s c0 c h1 h2
      | miss =>
          cases hu : lookupA s.urls c0 with
          | some u =>
              have hst : applyOp s (Op.getOriginal CacheResp.miss storage t c0)
                  = (incrementStats s c0).1 := by
                simp [applyOp, GetOriginalURL, hu]
              rw [hst]
              exact statsCount_le_incrementStats s c0 c h1 h2
          | none =>
              cases storage with
              | hit u =>
                  have hne : c0 ≠ c := by
                    intro hEq
                    rw [hEq] at hu
                    rw [hu] at hc
                    simp at hc
                  have hst : statsCount (applyOp s
                      (Op.getOriginal CacheResp.miss (StorageURLResp.hit u) t c0)) c
                      = statsCount s c := by
                    simp [applyOp, GetOriginalURL, hu, incrementStats,
                      statsCount, lookupA_insertA, hne]
                  rw [hst]
              | miss =>
                  have hst : applyOp s
                      (Op.getOriginal CacheResp.miss StorageURLResp.miss t c0) = s := by
                    simp [applyOp, GetOriginalURL, hu]
                  rw [hst]
              | errorResp =>
                  have hst : applyOp s
                      (Op.getOriginal CacheResp.miss StorageURLResp.errorResp t c0) = s := by
                    simp [applyOp, GetOriginalURL, hu]
                  rw [hst]
      | errorResp =>
          cases hu : lookupA s.urls c0 with
          | some u =>
              have hst : applyOp s
                  (Op.getOriginal CacheResp.errorResp storage t c0)
                  = (incrementStats s c0).1 := by
                simp [applyOp, GetOriginalURL, hu]
              rw [hst]
              exact statsCount_le_incrementStats s c0 c h1 h2
          | none =>
              cases storage with
              | hit u =>
                  have hne : c0 ≠ c := by
                    intro hEq
                    rw [hEq] at hu
                    rw [hu] at hc
                    simp at hc
                  have hst : statsCount (applyOp s
                      (Op.getOriginal CacheResp.errorResp (StorageURLResp.hit u) t c0)) c
                      = statsCount s c := by
                    simp [applyOp, GetOriginalURL, hu, incrementStats,
                      statsCount, lookupA_insertA, hne]
                  rw [hst]
              | miss =>
                  have hst : applyOp s
                      (Op.getOriginal CacheResp.errorResp StorageURLResp.miss t c0) = s := by
                    simp [applyOp, GetOriginalURL, hu]
                  rw [hst]
              | errorResp =>
                  have hst : applyOp s
                      (Op.getOriginal CacheResp.errorResp StorageURLResp.errorResp t c0) = s := by
                    simp [applyOp, GetOriginalURL, hu]
                  rw [hst]
  | getStats st c0 => exact le_refl _
  | increment c0 => exact statsCount_le_incrementStats s c0 c h1 h2

/-- C5 amended witness: an increment on an existing code whose counter is
within the int64 range does not lower it. -/
theorem c5_amended_click_counter_witness :
    statsCount { urls := [("abc123", "https://example.com")],
                 stats := [("abc123", (2 : Int))],
                 createdAt := [("abc123", 0)] } "abc123"
      ≤ statsCount (applyOp { urls := [("abc123", "https://example.com")],
                              stats := [("abc123", (2 : Int))],
                              createdAt := [("abc123", 0)] }
          (Op.increment "abc123")) "abc123" :=
  c5_amended_click_counter_monotone
    { urls := [("abc123", "https://example.com")],
      stats := [("abc123", (2 : Int))], createdAt := [("abc123", 0)] }
    (Op.increment "abc123") "abc123" rfl (by decide) (by decide)

/-- C6 counterexample: when the generated code (here produced by
`generateShortCode` from identical coarse clock samples) collides with an
existing code and no custom alias was supplied, `ShortenURL` surfaces the
conflict message "Custom alias already exists" — not a capacity or
transient error — and performs no retry (its result is this fixed
conflict response). -/
theorem c6_collision_returns_conflict_error :
    (ShortenURL { urls := [(generateShortCode (fun _ => 0), "https://old.example")],
                  stats := [(generateShortCode (fun _ => 0), (0 : Int))],
                  createdAt := [(generateShortCode (fun _ => 0), 0)] }
        (generateShortCode (fun _ => 0)) "https://new.example" "" 7).resp.error
      = "Custom alias already exists"
    ∧ (ShortenURL { urls := [(generateShortCode (fun _ => 0), "https://old.example")],
                    stats := [(generateShortCode (fun _ => 0), (0 : Int))],
                    createdAt := [(generateShortCode (fun _ => 0), 0)] }
        (generateShortCode (fun _ => 0)) "https://new.example" "" 7).state.urls
      = [(generateShortCode (fun _ => 0), "https://old.example")] := by
  constructor <;> decide

/-- C6 amended: when `ShortenURL` is called without a custom alias and the
generated code collides with an existing code, the engine does not retry
code generation: it immediately returns the error "Custom alias already
exists" (the conflict message, not a capacity error) and leaves local
state unchanged. -/
theorem c6_amended_no_retry_on_collision (s : LocalState)
    (generated originalUrl : String) (now : Nat) (v : String)
    (hcoll : lookupA s.urls generated = some v) :
    ShortenURL s generated originalUrl "" now =
      { resp := { shortCode := "", originalUrl := "",
                  error := "Custom alias already exists" },
        state := s, effects := [] } := by
  simp [ShortenURL, hcoll]

/-- C6 amended witness: a concrete collision without a custom alias. -/
theorem c6_amended_no_retry_witness :
    ShortenURL { urls := [("abc123", "https://old.example")],
                 stats := [("abc123", (0 : Int))],
                 createdAt := [("abc123", 0)] }
      "abc123" "https://new.example" "" 7
      = { resp := { shortCode := "", originalUrl := "",
                    error := "Custom alias already exists" },
          state := { urls := [("abc123", "https://old.example")],
                     stats := [("abc123", (0 : Int))],
                     createdAt := [("abc123", 0)] },
          effects := [] } :=
  c6_amended_no_retry_on_collision
    { urls := [("abc123", "https://old.example")],
      stats := [("abc123", (0 : Int))], createdAt := [("abc123", 0)] }
    "abc123" "https://new.example" 7 "https://old.example" rfl

/-- C7: for a code absent from the fast cache and from local state but
present in the durable store, `GetOriginalURL` returns `found = true` with
the stored URL, synchronously materializes the mapping into the local URL
map before returning, and triggers an asynchronous fast-cache warm write
of that mapping. -/
theorem c7_durable_hit_materializes_and_warms (s : LocalState)
    (db : List (String × DBRow)) (shortCode : String) (row : DBRow)
    (now : Nat)
    (hlocal : lookupA s.urls shortCode = none)
    (hdb : lookupA db shortCode = some row) :
    (GetOriginalURL s CacheResp.miss (storageGetURL db shortCode) now
        shortCode).resp
      = { originalUrl := row.originalUrl, found := true }
    ∧ lookupA (GetOriginalURL s CacheResp.miss (storageGetURL db shortCode)
        now shortCode).state.urls shortCode = some row.originalUrl
    ∧ Effect.cacheSet shortCode row.originalUrl 3600
      ∈ (GetOriginalURL s CacheResp.miss (storageGetURL db shortCode) now
          shortCode).effects := by
  have hst : storageGetURL db shortCode
      = StorageURLResp.hit row.originalUrl := by
    simp [storageGetURL, hdb]
  rw [hst]
  refine ⟨?_, ?_, ?_⟩ <;>
    simp [GetOriginalURL, hlocal, incrementStats, warmCache, lookupA_insertA]

/-- C7 witness: the durable tier alone resolves a cold code. -/
theorem c7_durable_hit_witness :
    (GetOriginalURL { urls := [], stats := [], createdAt := [] }
        CacheResp.miss
        (storageGetURL
          [("abc123", { originalUrl := "https://x.com", clickCount := 0,
                        createdAt := 0 })] "abc123")
        5 "abc123").resp
      = { originalUrl := "https://x.com", found := true } :=
  (c7_durable_hit_materializes_and_warms
    { urls := [], stats := [], createdAt := [] }
    [("abc123", { originalUrl := "https://x.com", clickCount := 0,
                  createdAt := 0 })]
    "abc123"
    { originalUrl := "https://x.com", clickCount := 0, createdAt := 0 }
    5 rfl rfl).1

end UrlShortener
